import Mathlib

/-!
Shallow embedding of the MStressV2 fusion/scoring core
(`ai-services/models/weighted_ai_assessment.py`,
`ai-services/services/dass21_scoring_service.py`,
`ai-services/weighted_assessment_engine.py`,
`ai-services/services/assessment_service.py`), with theorems checking the
natural-language specification against it.  Scores are modelled as exact
rationals; Python `round(x, n)` is modelled by round-half-to-even.
-/

namespace MStress

/-- The three mental-health domains scored throughout the codebase. -/
inductive Domain
  | depression
  | anxiety
  | stress
  deriving DecidableEq, Repr, Fintype

/-- DASS-21 severity bands, ordered `normal < mild < moderate < severe <
extremely_severe` (the `severity_levels` list of the source). -/
inductive Severity
  | normal
  | mild
  | moderate
  | severe
  | extremely_severe
  deriving DecidableEq, Repr, Fintype

/-- Risk categories produced by `_assess_risk_level`. -/
inductive Risk
  | low
  | medium
  | high
  | critical
  deriving DecidableEq, Repr, Fintype

/-- Python `round` on a rational: round half to even (banker's rounding),
as Python's builtin `round` does. -/
def pyRound (x : ℚ) : ℤ :=
  if x - (⌊x⌋ : ℚ) < 1/2 then ⌊x⌋
  else if 1/2 < x - (⌊x⌋ : ℚ) then ⌊x⌋ + 1
  else if ⌊x⌋ % 2 = 0 then ⌊x⌋ else ⌊x⌋ + 1

/-- Python `round(x, 2)`. -/
def round2 (x : ℚ) : ℚ := (pyRound (100 * x) : ℚ) / 100

/-- Python `round(x, 1)`. -/
def round1 (x : ℚ) : ℚ := (pyRound (10 * x) : ℚ) / 10

theorem pyRound_sub_le (x : ℚ) : x - 1/2 ≤ (pyRound x : ℚ) := by
  unfold pyRound
  have hf : (⌊x⌋ : ℚ) ≤ x := Int.floor_le x
  have hf' : x - 1 < (⌊x⌋ : ℚ) := Int.sub_one_lt_floor x
  split
  · next h => linarith
  · split
    · next h => push_cast; linarith
    · split <;> (push_cast; linarith)

theorem pyRound_le_add (x : ℚ) : (pyRound x : ℚ) ≤ x + 1/2 := by
  unfold pyRound
  have hf : (⌊x⌋ : ℚ) ≤ x := Int.floor_le x
  have hf' : x - 1 < (⌊x⌋ : ℚ) := Int.sub_one_lt_floor x
  split
  · next h => linarith
  · split
    · next h => push_cast; linarith
    · next h1 h2 =>
      have : x - (⌊x⌋ : ℚ) = 1/2 := by
        rcases lt_trichotomy (x - (⌊x⌋ : ℚ)) (1/2) with h | h | h
        · exact absurd h h1
        · exact h
        · exact absurd h h2
      split <;> (push_cast; linarith)

theorem pyRound_nonneg (x : ℚ) (hx : 0 ≤ x) : 0 ≤ pyRound x := by
  unfold pyRound
  have hf : 0 ≤ ⌊x⌋ := Int.floor_nonneg.mpr hx
  split
  · exact hf
  · split
    · omega
    · split <;> omega

theorem pyRound_le_of_le (x : ℚ) (n : ℤ) (hx : x ≤ n) : pyRound x ≤ n := by
  unfold pyRound
  have hf : ⌊x⌋ ≤ n := by
    have := Int.floor_le_floor (α := ℚ) hx
    simpa using this
  have hfq : (⌊x⌋ : ℚ) ≤ x := Int.floor_le x
  split
  · exact hf
  · split
    · next h =>
      -- here 1/2 < x - ⌊x⌋, so ⌊x⌋ + 1/2 < x ≤ n, hence ⌊x⌋ < n
      have : (⌊x⌋ : ℚ) + 1/2 < (n : ℚ) := by linarith
      have : ⌊x⌋ < n := by exact_mod_cast lt_of_add_lt_of_nonneg_left this (by norm_num)
      omega
    · next h1 h2 =>
      have hhalf : x - (⌊x⌋ : ℚ) = 1/2 := by
        rcases lt_trichotomy (x - (⌊x⌋ : ℚ)) (1/2) with h | h | h
        · exact absurd h h1
        · exact h
        · exact absurd h h2
      have : (⌊x⌋ : ℚ) + 1/2 ≤ (n : ℚ) := by linarith
      have hlt : ⌊x⌋ < n := by
        by_contra hc
        push_neg at hc
        have : (n : ℚ) ≤ (⌊x⌋ : ℚ) := by exact_mod_cast hc
        linarith
      split <;> omega

theorem round2_nonneg (x : ℚ) (hx : 0 ≤ x) : 0 ≤ round2 x := by
  unfold round2
  have : (0:ℤ) ≤ pyRound (100 * x) := pyRound_nonneg _ (by linarith)
  positivity

theorem round2_le_hundred (x : ℚ) (hx : x ≤ 100) : round2 x ≤ 100 := by
  unfold round2
  have h : pyRound (100 * x) ≤ (10000 : ℤ) :=
    pyRound_le_of_le _ 10000 (by push_cast; linarith)
  have h' : ((pyRound (100 * x) : ℤ) : ℚ) ≤ (10000 : ℚ) := by exact_mod_cast h
  linarith

theorem round2_sub_le (x : ℚ) : x - 1/200 ≤ round2 x := by
  unfold round2
  have := pyRound_sub_le (100 * x)
  linarith

theorem round2_le_add (x : ℚ) : round2 x ≤ x + 1/200 := by
  unfold round2
  have := pyRound_le_add (100 * x)
  linarith

/-- One component's standardized output: three domain scores plus a
confidence (the dicts produced by the `_process_*_results` helpers of
`WeightedAIAssessmentEngine`). -/
structure ComponentScore where
  depression : ℚ
  anxiety : ℚ
  stress : ℚ
  confidence : ℚ
  deriving DecidableEq, Repr

/-- Domain projection of a `ComponentScore`. -/
def ComponentScore.get (c : ComponentScore) : Domain → ℚ
  | .depression => c.depression
  | .anxiety => c.anxiety
  | .stress => c.stress

/-- The all-zero component score used for absent modalities
(`calculate_comprehensive_scores` initializes every component to
`{depression: 0, anxiety: 0, stress: 0, confidence: 0}`). -/
def zeroComponent : ComponentScore := ⟨0, 0, 0, 0⟩

/-- The `component_scores` dict of `calculate_comprehensive_scores`:
one `ComponentScore` per modality. -/
structure ComponentScores where
  voice_analysis : ComponentScore
  sentiment_analysis : ComponentScore
  keyword_matching : ComponentScore
  facial_analysis : ComponentScore
  deriving DecidableEq, Repr

namespace WeightedAIAssessmentEngine

/-- `self.component_weights` paired with the matching component score, in
the dict's iteration order (voice 0.40, sentiment 0.25, keyword 0.20,
facial 0.15). -/
def weightedComponents (cs : ComponentScores) : List (ℚ × ComponentScore) :=
  [(40/100, cs.voice_analysis),
   (25/100, cs.sentiment_analysis),
   (20/100, cs.keyword_matching),
   (15/100, cs.facial_analysis)]

/-- The `total_weight` accumulated by `_calculate_weighted_scores`:
sum of `weight * confidence` over the components. -/
def total_weight (cs : ComponentScores) : ℚ :=
  (weightedComponents cs).foldl (fun acc p => acc + p.1 * p.2.confidence) 0

/-- The per-domain weighted sum accumulated by
`_calculate_weighted_scores`: sum of `score * (weight * confidence)`. -/
def weighted_sum (cs : ComponentScores) (d : Domain) : ℚ :=
  (weightedComponents cs).foldl
    (fun acc p => acc + p.2.get d * (p.1 * p.2.confidence)) 0

/-- `_calculate_weighted_scores`: the final fused score for one domain.
The accumulated sum is divided by `total_weight` and rounded to two
decimals only when `total_weight > 0`; otherwise the raw accumulated sum
(which is 0 for valid inputs) is returned unchanged. -/
def calculate_weighted_scores (cs : ComponentScores) (d : Domain) : ℚ :=
  if 0 < total_weight cs then round2 (weighted_sum cs d / total_weight cs)
  else weighted_sum cs d

/-- `self.severity_thresholds` of `WeightedAIAssessmentEngine`:
per-domain `(severity, min_score, max_score)` rows, in dict order. -/
def severity_thresholds : Domain → List (Severity × ℚ × ℚ)
  | .depression =>
      [(.normal, 0, 9), (.mild, 10, 13), (.moderate, 14, 20),
       (.severe, 21, 27), (.extremely_severe, 28, 100)]
  | .anxiety =>
      [(.normal, 0, 7), (.mild, 8, 9), (.moderate, 10, 14),
       (.severe, 15, 19), (.extremely_severe, 20, 100)]
  | .stress =>
      [(.normal, 0, 14), (.mild, 15, 18), (.moderate, 19, 25),
       (.severe, 26, 33), (.extremely_severe, 34, 100)]

/-- `_score_to_severity`: first row whose inclusive `[min, max]` interval
contains the score; falls through to `normal` when no row matches. -/
def score_to_severity (score : ℚ) (category : Domain) : Severity :=
  match (severity_thresholds category).find?
      (fun row => decide (row.2.1 ≤ score) && decide (score ≤ row.2.2)) with
  | some row => row.1
  | none => .normal

/-- `_process_voice_results`: caps each domain score at 100 and passes the
confidence through. -/
def process_voice_results (dep anx str conf : ℚ) : ComponentScore :=
  ⟨min dep 100, min anx 100, min str 100, conf⟩

/-- `_process_sentiment_results`: converts the negative/positive/neutral
probabilities to domain scores; confidence is the largest probability. -/
def process_sentiment_results (negative positive neutral : ℚ) : ComponentScore :=
  ⟨min (negative * 80) 100,
   min (negative * 70 + (1 - neutral) * 20) 100,
   min (negative * 60 + (1 - positive) * 30) 100,
   max negative (max positive neutral)⟩

/-- `_process_keyword_results`: density-based scores
`min(count / total_words * 500, 100)` per domain and confidence
`min(total_keywords / 10, 1.0)`. -/
def process_keyword_results (dep_kw anx_kw str_kw total_words : ℚ) : ComponentScore :=
  ⟨min (dep_kw / total_words * 500) 100,
   min (anx_kw / total_words * 500) 100,
   min (str_kw / total_words * 500) 100,
   min ((dep_kw + anx_kw + str_kw) / 10) 1⟩

/-- `_process_facial_results`: maps facial emotion scores to domain
scores; confidence is the largest emotion score. -/
def process_facial_results (sadness fear anger happiness : ℚ) : ComponentScore :=
  ⟨min (sadness * 80 + (1 - happiness) * 20) 100,
   min (fear * 70 + sadness * 20) 100,
   min (anger * 60 + fear * 30) 100,
   max sadness (max fear (max anger happiness))⟩

/-- Names used by `_generate_recommendations` when interpolating the
category into the recommendation strings. -/
def domainName : Domain → String
  | .depression => "depression"
  | .anxiety => "anxiety"
  | .stress => "stress"

/-- `_generate_recommendations` of `WeightedAIAssessmentEngine`: one
recommendation per domain at `mild` or above, with a generic fallback when
none triggered.  (The numeric scores are read but never used.) -/
def generate_recommendations (dsev asev ssev : Severity) : List String :=
  let perDomain := fun (d : Domain) (sev : Severity) =>
    match sev with
    | .severe | .extremely_severe =>
        ["Immediate professional consultation recommended for " ++ domainName d]
    | .moderate =>
        ["Consider professional support for " ++ domainName d ++ " management"]
    | .mild =>
        ["Monitor " ++ domainName d ++ " levels and practice self-care techniques"]
    | .normal => []
  let recs := perDomain .depression dsev ++ perDomain .anxiety asev ++
    perDomain .stress ssev
  if recs = [] then
    ["Mental health indicators appear normal - continue healthy practices"]
  else recs

/-- The ordered `severity_levels` list of `_assess_risk_level`. -/
def severity_levels : List Severity :=
  [.normal, .mild, .moderate, .severe, .extremely_severe]

/-- `severity_levels.index`. -/
def severityIndex : Severity → ℕ
  | .normal => 0
  | .mild => 1
  | .moderate => 2
  | .severe => 3
  | .extremely_severe => 4

/-- The worst of the three severities, computed as in `_assess_risk_level`
(`severity_levels[max(severity_levels.index(s) for s in severities)]`). -/
def worstSeverity (dsev asev ssev : Severity) : Severity :=
  severity_levels.getD
    (max (severityIndex dsev) (max (severityIndex asev) (severityIndex ssev)))
    .normal

/-- The `risk_mapping` dict of `_assess_risk_level`. -/
def risk_mapping : Severity → Risk
  | .normal => .low
  | .mild => .low
  | .moderate => .medium
  | .severe => .high
  | .extremely_severe => .critical

/-- The dict returned by `_assess_risk_level`. -/
structure RiskAssessment where
  overall_risk : Risk
  highest_severity : Severity
  requires_attention : Bool
  deriving DecidableEq, Repr

/-- `_assess_risk_level`: worst severity mapped through `risk_mapping`;
attention is required at `moderate` or above. -/
def assess_risk_level (dsev asev ssev : Severity) : RiskAssessment :=
  let overall := worstSeverity dsev asev ssev
  { overall_risk := risk_mapping overall
    highest_severity := overall
    requires_attention :=
      overall = .moderate ∨ overall = .severe ∨ overall = .extremely_severe }

end WeightedAIAssessmentEngine

namespace DASS21ScoringService

/-- `QUESTION_MAPPING`: `(question_index, (subscale, weight))` rows in the
dict's insertion order (indices 0–19, weight always 1). -/
def QUESTION_MAPPING : List (ℕ × Domain × ℤ) :=
  [(0, .depression, 1), (1, .anxiety, 1), (2, .stress, 1),
   (3, .depression, 1), (4, .anxiety, 1), (5, .stress, 1),
   (6, .depression, 1), (7, .anxiety, 1), (8, .stress, 1),
   (9, .depression, 1), (10, .anxiety, 1), (11, .stress, 1),
   (12, .depression, 1), (13, .anxiety, 1), (14, .stress, 1),
   (15, .depression, 1), (16, .anxiety, 1), (17, .stress, 1),
   (18, .depression, 1), (19, .anxiety, 1)]

/-- `SEVERITY_THRESHOLDS` of `DASS21ScoringService`: same bands as the
fusion engine but with the `extremely_severe` rows capped at 42. -/
def SEVERITY_THRESHOLDS : Domain → List (Severity × ℚ × ℚ)
  | .depression =>
      [(.normal, 0, 9), (.mild, 10, 13), (.moderate, 14, 20),
       (.severe, 21, 27), (.extremely_severe, 28, 42)]
  | .anxiety =>
      [(.normal, 0, 7), (.mild, 8, 9), (.moderate, 10, 14),
       (.severe, 15, 19), (.extremely_severe, 20, 42)]
  | .stress =>
      [(.normal, 0, 14), (.mild, 15, 18), (.moderate, 19, 25),
       (.severe, 26, 33), (.extremely_severe, 34, 42)]

/-- `_calculate_subscale_score`: sums `responses[idx] * weight` over the
mapping rows assigned to the subscale, then doubles the sum when at least
one question belongs to the subscale. -/
def calculate_subscale_score (responses : List ℤ) (subscale : Domain) : ℤ :=
  let sc := QUESTION_MAPPING.foldl
    (fun acc q =>
      if q.2.1 = subscale then (acc.1 + responses.getD q.1 0 * q.2.2, acc.2 + 1)
      else acc)
    ((0 : ℤ), (0 : ℕ))
  if 0 < sc.2 then sc.1 * 2 else 0

/-- `_get_severity`: first threshold row containing the score, defaulting
to `extremely_severe` when no row matches. -/
def get_severity (score : ℚ) (subscale : Domain) : Severity :=
  match (SEVERITY_THRESHOLDS subscale).find?
      (fun row => decide (row.2.1 ≤ score) && decide (score ≤ row.2.2)) with
  | some row => row.1
  | none => .extremely_severe

/-- `_get_overall_severity`. -/
def get_overall_severity (overall_score : ℚ) : Severity :=
  if overall_score ≤ 10 then .normal
  else if overall_score ≤ 13 then .mild
  else if overall_score ≤ 20 then .moderate
  else if overall_score ≤ 27 then .severe
  else .extremely_severe

/-- `_get_interpretation`: message keyed off the highest subscale score. -/
def get_interpretation (depression anxiety str : ℤ) : String :=
  let highest := max depression (max anxiety str)
  if highest ≤ 9 then
    "Your mental health appears to be within normal range. Continue maintaining healthy habits."
  else if highest ≤ 13 then
    "You may be experiencing mild symptoms. Consider stress management techniques."
  else if highest ≤ 20 then
    "You may be experiencing moderate symptoms. Professional support is recommended."
  else if highest ≤ 27 then
    "You may be experiencing severe symptoms. Please seek professional help."
  else
    "You may be experiencing extremely severe symptoms. Immediate professional support is strongly recommended."

/-- `_get_recommendations`: threshold-triggered advice with a generic
fallback pair. -/
def get_recommendations (depression anxiety str : ℤ) : List String :=
  let recs :=
    (if 13 < depression then
      ["Consider speaking with a mental health professional about depression symptoms",
       "Engage in regular physical activity and maintain social connections"]
     else []) ++
    (if 9 < anxiety then
      ["Practice relaxation techniques such as deep breathing or meditation",
       "Limit caffeine intake and maintain regular sleep schedule"]
     else []) ++
    (if 18 < str then
      ["Identify and address major sources of stress in your life",
       "Practice time management and set realistic goals"]
     else [])
  if recs = [] then
    ["Maintain your current healthy lifestyle and coping strategies",
     "Continue regular self-care and stress management practices"]
  else recs

/-- One subscale's entry in the result dict of `score_assessment`. -/
structure SubscaleResult where
  score : ℤ
  severity : Severity
  percentage : ℚ
  deriving DecidableEq, Repr

/-- The dict returned by `score_assessment`. -/
structure DASSResult where
  depression : SubscaleResult
  anxiety : SubscaleResult
  stress : SubscaleResult
  overall_score : ℚ
  overall_severity : Severity
  overall_percentage : ℚ
  interpretation : String
  recommendations : List String
  deriving DecidableEq, Repr

/-- `score_assessment`: validates the 20-response contract (length 20 and
every value in 0–3, first violation reported as a `ValueError` message),
then builds the scored result. -/
def score_assessment (responses : List ℤ) : Except String DASSResult :=
  if responses.length ≠ 20 then
    .error ("Expected 20 responses, got " ++ toString responses.length)
  else
    match responses.find? (fun r => decide (r < 0) || decide (3 < r)) with
    | some r => .error ("Response must be between 0-3, got " ++ toString r)
    | none =>
        let depression_score := calculate_subscale_score responses .depression
        let anxiety_score := calculate_subscale_score responses .anxiety
        let stress_score := calculate_subscale_score responses .stress
        let overall_score : ℚ :=
          ((depression_score : ℚ) + (anxiety_score : ℚ) + (stress_score : ℚ)) / 3
        .ok
          { depression :=
              { score := depression_score
                severity := get_severity (depression_score : ℚ) .depression
                percentage := round1 ((depression_score : ℚ) / 42 * 100) }
            anxiety :=
              { score := anxiety_score
                severity := get_severity (anxiety_score : ℚ) .anxiety
                percentage := round1 ((anxiety_score : ℚ) / 42 * 100) }
            stress :=
              { score := stress_score
                severity := get_severity (stress_score : ℚ) .stress
                percentage := round1 ((stress_score : ℚ) / 42 * 100) }
            overall_score := round1 overall_score
            overall_severity := get_overall_severity overall_score
            overall_percentage := round1 (overall_score / 42 * 100)
            interpretation :=
              get_interpretation depression_score anxiety_score stress_score
            recommendations :=
              get_recommendations depression_score anxiety_score stress_score }

end DASS21ScoringService

namespace WeightedAssessmentEngine

/-- `_convert_keywords_to_scores` of the sibling
`WeightedAssessmentEngine` (`weighted_assessment_engine.py`): density
times 200, capped at 100, with no confidence output. -/
def convert_keywords_to_scores (dep_kw anx_kw str_kw total_words : ℚ) :
    Domain → ℚ
  | .depression => min (dep_kw / total_words * 200) 100
  | .anxiety => min (anx_kw / total_words * 200) 100
  | .stress => min (str_kw / total_words * 200) 100

end WeightedAssessmentEngine

namespace AssessmentService

/-- Order-preserving deduplication, as Python's
`list(dict.fromkeys(recommendations))`: keeps the first occurrence of each
entry. -/
def pyDedup (l : List String) : List String :=
  l.foldl (fun acc a => if a ∈ acc then acc else acc ++ [a]) []

/-- The base recommendations of `generate_recommendations`, selected by
the overall stress level string. -/
def base_recommendations (stress_level : String) : List String :=
  if stress_level = "high" then
    ["Consider speaking with a mental health professional",
     "Practice deep breathing exercises for 10-15 minutes daily",
     "Ensure you’re getting 7-9 hours of quality sleep",
     "Try progressive muscle relaxation techniques"]
  else if stress_level = "moderate" then
    ["Practice mindfulness or meditation for 10-15 minutes daily",
     "Maintain a regular sleep schedule",
     "Take short breaks throughout your day",
     "Try stress-reducing activities like yoga or walking"]
  else if stress_level = "mild" then
    ["Continue current stress management practices",
     "Maintain work-life balance",
     "Stay physically active",
     "Practice gratitude exercises"]
  else
    ["Maintain your current healthy lifestyle",
     "Continue regular exercise and good sleep habits",
     "Stay connected with your support network"]

/-- One iteration of the category loop of `generate_recommendations`:
a category whose percentage is at least 70 contributes its specific
advice line. -/
def category_recommendation (category : String) (percentage : ℚ) : List String :=
  if 70 ≤ percentage then
    if category = "academic" then
      ["Consider time management techniques for academic workload"]
    else if category = "social" then
      ["Focus on building supportive social connections"]
    else if category = "financial" then
      ["Consider financial planning or counseling resources"]
    else if category = "health" then
      ["Prioritize physical and mental health self-care"]
    else if category = "work" then
      ["Explore work-life balance strategies"]
    else []
  else []

/-- The facial-emotion additions of `generate_recommendations`. -/
def facial_recommendations (dominant_emotions : List String) : List String :=
  (if "angry" ∈ dominant_emotions then
    ["Practice anger management techniques"] else []) ++
  (if "sad" ∈ dominant_emotions then
    ["Consider mood-boosting activities and social support"] else []) ++
  (if "fear" ∈ dominant_emotions then
    ["Try anxiety reduction techniques like grounding exercises"] else [])

/-- `AssessmentService.generate_recommendations`: base advice for the
stress level, category-specific advice for categories scoring at least
70%, facial-emotion advice, then first-occurrence deduplication and a cap
of 8 entries. -/
def generate_recommendations (stress_level : String)
    (category_scores : List (String × ℚ))
    (dominant_emotions : List String) : List String :=
  (pyDedup
    (base_recommendations stress_level ++
     category_scores.flatMap (fun p => category_recommendation p.1 p.2) ++
     facial_recommendations dominant_emotions)).take 8

end AssessmentService

/-- The `ModalityScore` invariant of the spec: domain scores in `[0, 100]`
and confidence in `[0, 1]`. -/
def ValidComponent (c : ComponentScore) : Prop :=
  0 ≤ c.depression ∧ c.depression ≤ 100 ∧
  0 ≤ c.anxiety ∧ c.anxiety ≤ 100 ∧
  0 ≤ c.stress ∧ c.stress ≤ 100 ∧
  0 ≤ c.confidence ∧ c.confidence ≤ 1

instance (c : ComponentScore) : Decidable (ValidComponent c) := by
  unfold ValidComponent; infer_instance

/-- All four modality entries satisfy the `ModalityScore` invariant. -/
def ValidComponents (cs : ComponentScores) : Prop :=
  ValidComponent cs.voice_analysis ∧ ValidComponent cs.sentiment_analysis ∧
  ValidComponent cs.keyword_matching ∧ ValidComponent cs.facial_analysis

instance (cs : ComponentScores) : Decidable (ValidComponents cs) := by
  unfold ValidComponents; infer_instance

/-- The severity bands of a threshold table whose inclusive interval
contains the given score. -/
def bandsContaining (table : List (Severity × ℚ × ℚ)) (score : ℚ) : List Severity :=
  (table.filter (fun row => decide (row.2.1 ≤ score) && decide (score ≤ row.2.2))).map
    Prod.fst

/-- Component scores for an assessment where only the sentiment modality
produced output (all other components stay at their zero defaults). -/
def sentimentOnly (negative positive neutral : ℚ) : ComponentScores :=
  ⟨zeroComponent,
   WeightedAIAssessmentEngine.process_sentiment_results negative positive neutral,
   zeroComponent, zeroComponent⟩

/-- Component scores for an assessment where no modality produced output. -/
def zeroComponents : ComponentScores :=
  ⟨zeroComponent, zeroComponent, zeroComponent, zeroComponent⟩

section HelperLemmas

open WeightedAIAssessmentEngine DASS21ScoringService

theorem ComponentScore.get_nonneg (c : ComponentScore) (h : ValidComponent c)
    (d : Domain) : 0 ≤ c.get d := by
  obtain ⟨h1, h2, h3, h4, h5, h6, h7, h8⟩ := h
  cases d <;> simpa [ComponentScore.get]

theorem ComponentScore.get_le (c : ComponentScore) (h : ValidComponent c)
    (d : Domain) : c.get d ≤ 100 := by
  obtain ⟨h1, h2, h3, h4, h5, h6, h7, h8⟩ := h
  cases d <;> simpa [ComponentScore.get]

theorem total_weight_eq (cs : ComponentScores) :
    total_weight cs =
      40/100 * cs.voice_analysis.confidence +
      25/100 * cs.sentiment_analysis.confidence +
      20/100 * cs.keyword_matching.confidence +
      15/100 * cs.facial_analysis.confidence := by
  simp [total_weight, weightedComponents]

theorem weighted_sum_eq (cs : ComponentScores) (d : Domain) :
    weighted_sum cs d =
      cs.voice_analysis.get d * (40/100 * cs.voice_analysis.confidence) +
      cs.sentiment_analysis.get d * (25/100 * cs.sentiment_analysis.confidence) +
      cs.keyword_matching.get d * (20/100 * cs.keyword_matching.confidence) +
      cs.facial_analysis.get d * (15/100 * cs.facial_analysis.confidence) := by
  simp [weighted_sum, weightedComponents]

theorem total_weight_nonneg (cs : ComponentScores) (h : ValidComponents cs) :
    0 ≤ total_weight cs := by
  obtain ⟨hv, hs, hk, hf⟩ := h
  rw [total_weight_eq]
  have := hv.2.2.2.2.2.2.1
  have := hs.2.2.2.2.2.2.1
  have := hk.2.2.2.2.2.2.1
  have := hf.2.2.2.2.2.2.1
  linarith

theorem weighted_sum_nonneg (cs : ComponentScores) (h : ValidComponents cs)
    (d : Domain) : 0 ≤ weighted_sum cs d := by
  obtain ⟨hv, hs, hk, hf⟩ := h
  rw [weighted_sum_eq]
  have t1 : (0:ℚ) ≤ cs.voice_analysis.get d * (40/100 * cs.voice_analysis.confidence) :=
    mul_nonneg (ComponentScore.get_nonneg _ hv d)
      (by have := hv.2.2.2.2.2.2.1; linarith)
  have t2 : (0:ℚ) ≤ cs.sentiment_analysis.get d * (25/100 * cs.sentiment_analysis.confidence) :=
    mul_nonneg (ComponentScore.get_nonneg _ hs d)
      (by have := hs.2.2.2.2.2.2.1; linarith)
  have t3 : (0:ℚ) ≤ cs.keyword_matching.get d * (20/100 * cs.keyword_matching.confidence) :=
    mul_nonneg (ComponentScore.get_nonneg _ hk d)
      (by have := hk.2.2.2.2.2.2.1; linarith)
  have t4 : (0:ℚ) ≤ cs.facial_analysis.get d * (15/100 * cs.facial_analysis.confidence) :=
    mul_nonneg (ComponentScore.get_nonneg _ hf d)
      (by have := hf.2.2.2.2.2.2.1; linarith)
  linarith

theorem weighted_sum_le (cs : ComponentScores) (h : ValidComponents cs)
    (d : Domain) : weighted_sum cs d ≤ 100 * total_weight cs := by
  obtain ⟨hv, hs, hk, hf⟩ := h
  rw [weighted_sum_eq, total_weight_eq]
  have t1 : cs.voice_analysis.get d * (40/100 * cs.voice_analysis.confidence) ≤
      100 * (40/100 * cs.voice_analysis.confidence) :=
    mul_le_mul_of_nonneg_right (ComponentScore.get_le _ hv d)
      (by have := hv.2.2.2.2.2.2.1; linarith)
  have t2 : cs.sentiment_analysis.get d * (25/100 * cs.sentiment_analysis.confidence) ≤
      100 * (25/100 * cs.sentiment_analysis.confidence) :=
    mul_le_mul_of_nonneg_right (ComponentScore.get_le _ hs d)
      (by have := hs.2.2.2.2.2.2.1; linarith)
  have t3 : cs.keyword_matching.get d * (20/100 * cs.keyword_matching.confidence) ≤
      100 * (20/100 * cs.keyword_matching.confidence) :=
    mul_le_mul_of_nonneg_right (ComponentScore.get_le _ hk d)
      (by have := hk.2.2.2.2.2.2.1; linarith)
  have t4 : cs.facial_analysis.get d * (15/100 * cs.facial_analysis.confidence) ≤
      100 * (15/100 * cs.facial_analysis.confidence) :=
    mul_le_mul_of_nonneg_right (ComponentScore.get_le _ hf d)
      (by have := hf.2.2.2.2.2.2.1; linarith)
  linarith

/-- With all-nonnegative confidences, a zero total weight forces every
per-component effective weight (hence the whole weighted sum) to zero. -/
theorem weighted_sum_eq_zero_of_total_weight_eq_zero (cs : ComponentScores)
    (h : ValidComponents cs) (htw : total_weight cs = 0) (d : Domain) :
    weighted_sum cs d = 0 := by
  obtain ⟨hv, hs, hk, hf⟩ := h
  have cv := hv.2.2.2.2.2.2.1
  have cse := hs.2.2.2.2.2.2.1
  have ck := hk.2.2.2.2.2.2.1
  have cf := hf.2.2.2.2.2.2.1
  rw [total_weight_eq] at htw
  have hv0 : cs.voice_analysis.confidence = 0 := by linarith
  have hs0 : cs.sentiment_analysis.confidence = 0 := by linarith
  have hk0 : cs.keyword_matching.confidence = 0 := by linarith
  have hf0 : cs.facial_analysis.confidence = 0 := by linarith
  rw [weighted_sum_eq, hv0, hs0, hk0, hf0]
  ring

/-- Fused scores stay inside `[0, 100]` for valid component inputs. -/
theorem fused_score_bounds (cs : ComponentScores) (h : ValidComponents cs)
    (d : Domain) :
    0 ≤ calculate_weighted_scores cs d ∧ calculate_weighted_scores cs d ≤ 100 := by
  unfold calculate_weighted_scores
  split
  · next htw =>
    have hnum0 := weighted_sum_nonneg cs h d
    have hnum1 := weighted_sum_le cs h d
    have hq0 : 0 ≤ weighted_sum cs d / total_weight cs := div_nonneg hnum0 (le_of_lt htw)
    have hq1 : weighted_sum cs d / total_weight cs ≤ 100 := by
      rw [div_le_iff₀ htw]
      linarith
    exact ⟨round2_nonneg _ hq0, round2_le_hundred _ hq1⟩
  · next htw =>
    have h0 : total_weight cs = 0 :=
      le_antisymm (not_lt.mp htw) (total_weight_nonneg cs h)
    rw [weighted_sum_eq_zero_of_total_weight_eq_zero cs h h0 d]
    norm_num

/-- A list of length 20 is literally a 20-element list. -/
theorem list_eq_of_length20 (rs : List ℤ) (h : rs.length = 20) :
    ∃ a0 a1 a2 a3 a4 a5 a6 a7 a8 a9 a10 a11 a12 a13 a14 a15 a16 a17 a18 a19 : ℤ,
      rs = [a0, a1, a2, a3, a4, a5, a6, a7, a8, a9,
            a10, a11, a12, a13, a14, a15, a16, a17, a18, a19] := by
  rcases rs with _ | ⟨a0, rs⟩; · simp at h
  rcases rs with _ | ⟨a1, rs⟩; · simp at h
  rcases rs with _ | ⟨a2, rs⟩; · simp at h
  rcases rs with _ | ⟨a3, rs⟩; · simp at h
  rcases rs with _ | ⟨a4, rs⟩; · simp at h
  rcases rs with _ | ⟨a5, rs⟩; · simp at h
  rcases rs with _ | ⟨a6, rs⟩; · simp at h
  rcases rs with _ | ⟨a7, rs⟩; · simp at h
  rcases rs with _ | ⟨a8, rs⟩; · simp at h
  rcases rs with _ | ⟨a9, rs⟩; · simp at h
  rcases rs with _ | ⟨a10, rs⟩; · simp at h
  rcases rs with _ | ⟨a11, rs⟩; · simp at h
  rcases rs with _ | ⟨a12, rs⟩; · simp at h
  rcases rs with _ | ⟨a13, rs⟩; · simp at h
  rcases rs with _ | ⟨a14, rs⟩; · simp at h
  rcases rs with _ | ⟨a15, rs⟩; · simp at h
  rcases rs with _ | ⟨a16, rs⟩; · simp at h
  rcases rs with _ | ⟨a17, rs⟩; · simp at h
  rcases rs with _ | ⟨a18, rs⟩; · simp at h
  rcases rs with _ | ⟨a19, rs⟩; · simp at h
  rcases rs with _ | ⟨a20, rs⟩
  · exact ⟨a0, a1, a2, a3, a4, a5, a6, a7, a8, a9,
      a10, a11, a12, a13, a14, a15, a16, a17, a18, a19, rfl⟩
  · simp at h

/-- Subscale-score bounds over all valid 20-response lists: every subscale
sum is nonnegative, depression and anxiety are at most 42, and stress
(with only 6 assigned questions) is at most 36. -/
theorem subscale_score_bounds (rs : List ℤ) (h20 : rs.length = 20)
    (hr : ∀ r ∈ rs, 0 ≤ r ∧ r ≤ 3) :
    (0 ≤ calculate_subscale_score rs .depression ∧
      calculate_subscale_score rs .depression ≤ 42) ∧
    (0 ≤ calculate_subscale_score rs .anxiety ∧
      calculate_subscale_score rs .anxiety ≤ 42) ∧
    (0 ≤ calculate_subscale_score rs .stress ∧
      calculate_subscale_score rs .stress ≤ 36) := by
  obtain ⟨a0, a1, a2, a3, a4, a5, a6, a7, a8, a9,
    a10, a11, a12, a13, a14, a15, a16, a17, a18, a19, rfl⟩ :=
    list_eq_of_length20 rs h20
  simp only [List.mem_cons, List.not_mem_nil, or_false, forall_eq_or_imp,
    forall_eq] at hr
  rw [show calculate_subscale_score [a0, a1, a2, a3, a4, a5, a6, a7, a8, a9,
      a10, a11, a12, a13, a14, a15, a16, a17, a18, a19] .depression
    = (0 + a0 * 1 + a3 * 1 + a6 * 1 + a9 * 1 + a12 * 1 + a15 * 1 + a18 * 1) * 2 from rfl]
  rw [show calculate_subscale_score [a0, a1, a2, a3, a4, a5, a6, a7, a8, a9,
      a10, a11, a12, a13, a14, a15, a16, a17, a18, a19] .anxiety
    = (0 + a1 * 1 + a4 * 1 + a7 * 1 + a10 * 1 + a13 * 1 + a16 * 1 + a19 * 1) * 2 from rfl]
  rw [show calculate_subscale_score [a0, a1, a2, a3, a4, a5, a6, a7, a8, a9,
      a10, a11, a12, a13, a14, a15, a16, a17, a18, a19] .stress
    = (0 + a2 * 1 + a5 * 1 + a8 * 1 + a11 * 1 + a14 * 1 + a17 * 1) * 2 from rfl]
  omega

theorem zeroComponent_get (d : Domain) : zeroComponent.get d = 0 := by
  cases d <;> rfl

theorem zeroComponent_confidence : zeroComponent.confidence = 0 := rfl

/-- With only the sentiment modality present and its confidence equal to
the (positive) negative probability, each fused score is the rounded
sentiment component score. -/
theorem sentimentOnly_fused (neg pos neu : ℚ)
    (hconf : max neg (max pos neu) = neg) (hneg : 0 < neg) (d : Domain) :
    calculate_weighted_scores (sentimentOnly neg pos neu) d =
      round2 ((process_sentiment_results neg pos neu).get d) := by
  have hcf : (process_sentiment_results neg pos neu).confidence = neg := by
    simp [process_sentiment_results, hconf]
  have htw : total_weight (sentimentOnly neg pos neu) = 25/100 * neg := by
    rw [total_weight_eq]
    simp [sentimentOnly, zeroComponent_confidence, hcf]
  have hws : weighted_sum (sentimentOnly neg pos neu) d =
      (process_sentiment_results neg pos neu).get d * (25/100 * neg) := by
    rw [weighted_sum_eq]
    simp [sentimentOnly, zeroComponent_confidence, hcf]
  unfold calculate_weighted_scores
  rw [htw, hws, if_pos (by linarith)]
  congr 1
  field_simp

/-- On a valid 20-response list `score_assessment` succeeds and returns
the record built from the subscale scores. -/
theorem score_assessment_ok (rs : List ℤ) (h20 : rs.length = 20)
    (hr : ∀ r ∈ rs, 0 ≤ r ∧ r ≤ 3) :
    score_assessment rs = Except.ok
      { depression :=
          { score := calculate_subscale_score rs .depression
            severity := get_severity ((calculate_subscale_score rs .depression : ℚ)) .depression
            percentage := round1 ((calculate_subscale_score rs .depression : ℚ) / 42 * 100) }
        anxiety :=
          { score := calculate_subscale_score rs .anxiety
            severity := get_severity ((calculate_subscale_score rs .anxiety : ℚ)) .anxiety
            percentage := round1 ((calculate_subscale_score rs .anxiety : ℚ) / 42 * 100) }
        stress :=
          { score := calculate_subscale_score rs .stress
            severity := get_severity ((calculate_subscale_score rs .stress : ℚ)) .stress
            percentage := round1 ((calculate_subscale_score rs .stress : ℚ) / 42 * 100) }
        overall_score := round1 (((calculate_subscale_score rs .depression : ℚ) +
          (calculate_subscale_score rs .anxiety : ℚ) +
          (calculate_subscale_score rs .stress : ℚ)) / 3)
        overall_severity := get_overall_severity
          (((calculate_subscale_score rs .depression : ℚ) +
            (calculate_subscale_score rs .anxiety : ℚ) +
            (calculate_subscale_score rs .stress : ℚ)) / 3)
        overall_percentage := round1 ((((calculate_subscale_score rs .depression : ℚ) +
          (calculate_subscale_score rs .anxiety : ℚ) +
          (calculate_subscale_score rs .stress : ℚ)) / 3) / 42 * 100)
        interpretation := get_interpretation (calculate_subscale_score rs .depression)
          (calculate_subscale_score rs .anxiety) (calculate_subscale_score rs .stress)
        recommendations := get_recommendations (calculate_subscale_score rs .depression)
          (calculate_subscale_score rs .anxiety) (calculate_subscale_score rs .stress) } := by
  unfold score_assessment
  rw [if_neg (by omega)]
  have hfind : rs.find? (fun r => decide (r < 0) || decide (3 < r)) = none := by
    rw [List.find?_eq_none]
    intro x hx
    have := hr x hx
    simp
    omega
  rw [hfind]

theorem pyDedup_go_nodup (l acc : List String) (h : acc.Nodup) :
    (l.foldl (fun acc a => if a ∈ acc then acc else acc ++ [a]) acc).Nodup := by
  induction l generalizing acc with
  | nil => simpa
  | cons a l ih =>
    simp only [List.foldl_cons]
    split
    · exact ih acc h
    · next ha =>
      refine ih _ ?_
      simp [List.nodup_append, h, ha]

theorem pyDedup_go_length (l acc : List String) :
    acc.length ≤ (l.foldl (fun acc a => if a ∈ acc then acc else acc ++ [a]) acc).length := by
  induction l generalizing acc with
  | nil => simp
  | cons a l ih =>
    simp only [List.foldl_cons]
    split
    · exact ih acc
    · calc acc.length ≤ (acc ++ [a]).length := by simp
        _ ≤ _ := ih _

theorem pyDedup_nodup (l : List String) : (AssessmentService.pyDedup l).Nodup :=
  pyDedup_go_nodup l [] List.nodup_nil

theorem pyDedup_ne_nil (l : List String) (h : l ≠ []) :
    AssessmentService.pyDedup l ≠ [] := by
  cases l with
  | nil => exact absurd rfl h
  | cons a l =>
    have hlen : (1 : ℕ) ≤ (AssessmentService.pyDedup (a :: l)).length := by
      unfold AssessmentService.pyDedup
      simp only [List.foldl_cons]
      have := pyDedup_go_length l (if a ∈ ([] : List String) then [] else [] ++ [a])
      simpa using this
    intro hnil
    rw [hnil] at hlen
    simp at hlen

theorem base_recommendations_ne_nil (sl : String) :
    AssessmentService.base_recommendations sl ≠ [] := by
  unfold AssessmentService.base_recommendations
  split <;> try simp
  split <;> try simp
  split <;> simp

end HelperLemmas

section Claims

open WeightedAIAssessmentEngine DASS21ScoringService

/-- C5: the Risk Assessor maps the worst of the three domain severities
through the fixed table `normal/mild → low`, `moderate → medium`,
`severe → high`, `extremely_severe → critical`, and `requires_attention`
holds exactly when the resulting risk is medium, high, or critical. -/
theorem claim_C5_risk_assessment : ∀ dsev asev ssev : Severity,
    (assess_risk_level dsev asev ssev).overall_risk =
      risk_mapping (worstSeverity dsev asev ssev)
    ∧ severityIndex dsev ≤ severityIndex (worstSeverity dsev asev ssev)
    ∧ severityIndex asev ≤ severityIndex (worstSeverity dsev asev ssev)
    ∧ severityIndex ssev ≤ severityIndex (worstSeverity dsev asev ssev)
    ∧ (worstSeverity dsev asev ssev = dsev ∨ worstSeverity dsev asev ssev = asev ∨
        worstSeverity dsev asev ssev = ssev)
    ∧ risk_mapping .normal = .low ∧ risk_mapping .mild = .low
    ∧ risk_mapping .moderate = .medium ∧ risk_mapping .severe = .high
    ∧ risk_mapping .extremely_severe = .critical
    ∧ ((assess_risk_level dsev asev ssev).requires_attention = true ↔
        ((assess_risk_level dsev asev ssev).overall_risk = .medium ∨
         (assess_risk_level dsev asev ssev).overall_risk = .high ∨
         (assess_risk_level dsev asev ssev).overall_risk = .critical)) := by
  decide

/-- C8: scoring the all-zero DASS-21 response list yields subscale score 0
and severity `normal` for depression, anxiety and stress, overall severity
`normal`, which the fixed severity-to-risk table maps to risk `low`. -/
theorem claim_C8_all_zero_responses :
    (score_assessment (List.replicate 20 0)).toOption.map
      (fun r => (r.depression.score, r.depression.severity,
                 r.anxiety.score, r.anxiety.severity,
                 r.stress.score, r.stress.severity,
                 r.overall_severity, risk_mapping r.overall_severity)) =
      some (0, .normal, 0, .normal, 0, .normal, .normal, Risk.low) := by
  have h20 : (List.replicate 20 (0:ℤ)).length = 20 := by simp
  have hr : ∀ r ∈ List.replicate 20 (0:ℤ), 0 ≤ r ∧ r ≤ 3 := by
    intro r hx
    rw [List.eq_of_mem_replicate hx]
    omega
  rw [score_assessment_ok _ h20 hr]
  have hd : calculate_subscale_score (List.replicate 20 (0:ℤ)) .depression = 0 := by decide
  have ha : calculate_subscale_score (List.replicate 20 (0:ℤ)) .anxiety = 0 := by decide
  have hs : calculate_subscale_score (List.replicate 20 (0:ℤ)) .stress = 0 := by decide
  rw [hd, ha, hs]
  have e1 : ((0:ℤ):ℚ) = 0 := by norm_num
  rw [e1]
  have e2 : ((0:ℚ) + 0 + 0) / 3 = 0 := by norm_num
  rw [e2]
  have e3 : get_severity (0:ℚ) .depression = .normal := by decide
  have e4 : get_severity (0:ℚ) .anxiety = .normal := by decide
  have e5 : get_severity (0:ℚ) .stress = .normal := by decide
  have e6 : get_overall_severity (0:ℚ) = .normal := by decide
  rw [e3, e4, e5, e6]
  rfl

/-- C10: the fixed DASS-21 question mapping assigns 7 questions to
depression, 7 to anxiety and only 6 to stress; hence with the times-2
multiplier the stress subscale never exceeds 36 over valid response lists
while depression and anxiety are bounded by (and attain) 42, the all-threes
submission scoring (42, 42, 36). -/
theorem claim_C10_question_mapping :
    ((QUESTION_MAPPING.filter (fun q => q.2.1 = .depression)).length = 7
      ∧ (QUESTION_MAPPING.filter (fun q => q.2.1 = .anxiety)).length = 7
      ∧ (QUESTION_MAPPING.filter (fun q => q.2.1 = .stress)).length = 6)
    ∧ (∀ rs : List ℤ, rs.length = 20 → (∀ r ∈ rs, 0 ≤ r ∧ r ≤ 3) →
        calculate_subscale_score rs .stress ≤ 36
        ∧ calculate_subscale_score rs .depression ≤ 42
        ∧ calculate_subscale_score rs .anxiety ≤ 42)
    ∧ (calculate_subscale_score (List.replicate 20 3) .depression = 42
      ∧ calculate_subscale_score (List.replicate 20 3) .anxiety = 42
      ∧ calculate_subscale_score (List.replicate 20 3) .stress = 36) := by
  refine ⟨by decide, ?_, by decide⟩
  intro rs h20 hr
  obtain ⟨⟨hd0, hd1⟩, ⟨ha0, ha1⟩, ⟨hs0, hs1⟩⟩ := subscale_score_bounds rs h20 hr
  exact ⟨hs1, hd1, ha1⟩

/-- C10 witness: the bound instantiated at the all-threes response list. -/
theorem claim_C10_question_mapping_witness :
    calculate_subscale_score (List.replicate 20 3) .stress ≤ 36
    ∧ calculate_subscale_score (List.replicate 20 3) .depression ≤ 42
    ∧ calculate_subscale_score (List.replicate 20 3) .anxiety ≤ 42 :=
  claim_C10_question_mapping.2.1 (List.replicate 20 3) (by decide) (by decide)

/-- C2 counterexample: the in-range score 9.5 (reachable as a fused,
two-decimal score) lies in no severity band of either threshold table:
not exactly one band applies, and the two classifiers fall through to
different defaults (`normal` versus `extremely_severe`). -/
theorem claim_C2_counterexample :
    (0 ≤ (19/2 : ℚ) ∧ (19/2 : ℚ) ≤ 42)
    ∧ bandsContaining (severity_thresholds .depression) (19/2) = []
    ∧ bandsContaining (SEVERITY_THRESHOLDS .depression) (19/2) = []
    ∧ score_to_severity (19/2) .depression = .normal
    ∧ get_severity (19/2) .depression = .extremely_severe
    ∧ score_to_severity (19/2) .depression ≠ get_severity (19/2) .depression := by
  norm_num [bandsContaining, severity_thresholds, SEVERITY_THRESHOLDS,
    score_to_severity, get_severity, List.filter, List.find?]
  decide

/-- C2 (amended): for every integer score in the domain's valid range
(0–100 for the fusion engine's table, 0–42 for the DASS-21 table) exactly
one severity band applies and the classifier returns that band, with
inclusive boundaries: depression 9 is `normal` and 10 is `mild` under both
classifiers. -/
theorem claim_C2_integer_bands :
    (∀ n : ℕ, n < 101 → ∀ d : Domain,
      bandsContaining (severity_thresholds d) (n : ℚ) =
        [score_to_severity (n : ℚ) d]
      ∧ (n ≤ 42 → bandsContaining (SEVERITY_THRESHOLDS d) (n : ℚ) =
          [get_severity (n : ℚ) d]))
    ∧ score_to_severity 9 .depression = .normal
    ∧ score_to_severity 10 .depression = .mild
    ∧ get_severity 9 .depression = .normal
    ∧ get_severity 10 .depression = .mild := by
  constructor
  · decide
  · decide

/-- C2 witness: the integer-band statement instantiated at the boundary
score 9 for depression. -/
theorem claim_C2_integer_bands_witness :
    bandsContaining (severity_thresholds .depression) ((9 : ℕ) : ℚ) =
      [score_to_severity ((9 : ℕ) : ℚ) .depression]
    ∧ ((9 : ℕ) ≤ 42 → bandsContaining (SEVERITY_THRESHOLDS .depression) ((9 : ℕ) : ℚ) =
        [get_severity ((9 : ℕ) : ℚ) .depression]) :=
  claim_C2_integer_bands.1 9 (by decide) .depression

/-- C1 counterexample: with a sentiment-only input the fused depression
score is the two-decimal rounding 26.67 of the confidence-weighted ratio
80/3, not the ratio itself as the claim's formula states. -/
theorem claim_C1_counterexample :
    0 < total_weight (sentimentOnly (1/3) (1/3) (1/3))
    ∧ calculate_weighted_scores (sentimentOnly (1/3) (1/3) (1/3)) .depression = 2667/100
    ∧ weighted_sum (sentimentOnly (1/3) (1/3) (1/3)) .depression /
        total_weight (sentimentOnly (1/3) (1/3) (1/3)) = 80/3
    ∧ calculate_weighted_scores (sentimentOnly (1/3) (1/3) (1/3)) .depression ≠
        weighted_sum (sentimentOnly (1/3) (1/3) (1/3)) .depression /
          total_weight (sentimentOnly (1/3) (1/3) (1/3)) := by
  have hconf : max (1/3 : ℚ) (max (1/3) (1/3)) = 1/3 := by norm_num
  have htw : total_weight (sentimentOnly (1/3) (1/3) (1/3)) = 1/12 := by
    rw [total_weight_eq]
    simp [sentimentOnly, zeroComponent_confidence, process_sentiment_results, hconf]
    norm_num
  have hws : weighted_sum (sentimentOnly (1/3) (1/3) (1/3)) .depression = 20/9 := by
    rw [weighted_sum_eq]
    simp [sentimentOnly, zeroComponent_confidence, zeroComponent_get,
      process_sentiment_results, hconf, ComponentScore.get]
    norm_num
  have hfused : calculate_weighted_scores (sentimentOnly (1/3) (1/3) (1/3)) .depression =
      2667/100 := by
    rw [sentimentOnly_fused (1/3) (1/3) (1/3) hconf (by norm_num) .depression]
    simp [process_sentiment_results, ComponentScore.get]
    norm_num [round2, pyRound]
  refine ⟨by rw [htw]; norm_num, hfused, by rw [hws, htw]; norm_num, ?_⟩
  rw [hfused, hws, htw]
  norm_num

/-- C7 counterexample: at one depression keyword in ten words the keyword
normalizer of the fusion engine scores 50 (density times 500, capped at
100), not the claimed `min(100, 200 * count/total_words) = 20`. -/
theorem claim_C7_counterexample :
    (process_keyword_results 1 0 0 10).depression = 50
    ∧ min 100 (200 * (1 : ℚ) / 10) = 20
    ∧ (process_keyword_results 1 0 0 10).depression ≠ min 100 (200 * (1 : ℚ) / 10) := by
  norm_num [process_keyword_results, min_def]

/-- C9 counterexample: sentiment-only input with negative probability 0.9.
With the remaining 0.1 on neutral, the fused scores are depression 72,
anxiety 81 and stress 84, refuting the claimed ordering depression ≥
anxiety ≥ stress; with the remaining 0.1 on positive, anxiety 83 exceeds
stress 81, so no fixed order between anxiety and stress holds either. -/
theorem claim_C9_counterexample :
    calculate_weighted_scores (sentimentOnly (9/10) 0 (1/10)) .depression = 72
    ∧ calculate_weighted_scores (sentimentOnly (9/10) 0 (1/10)) .anxiety = 81
    ∧ calculate_weighted_scores (sentimentOnly (9/10) 0 (1/10)) .stress = 84
    ∧ ¬(calculate_weighted_scores (sentimentOnly (9/10) 0 (1/10)) .anxiety ≤
        calculate_weighted_scores (sentimentOnly (9/10) 0 (1/10)) .depression)
    ∧ ¬(calculate_weighted_scores (sentimentOnly (9/10) 0 (1/10)) .stress ≤
        calculate_weighted_scores (sentimentOnly (9/10) 0 (1/10)) .anxiety)
    ∧ calculate_weighted_scores (sentimentOnly (9/10) (1/10) 0) .anxiety = 83
    ∧ calculate_weighted_scores (sentimentOnly (9/10) (1/10) 0) .stress = 81
    ∧ ¬(calculate_weighted_scores (sentimentOnly (9/10) (1/10) 0) .anxiety ≤
        calculate_weighted_scores (sentimentOnly (9/10) (1/10) 0) .stress) := by
  have hconfA : max (9/10 : ℚ) (max 0 (1/10)) = 9/10 := by
    rw [max_eq_right (by norm_num : (0:ℚ) ≤ 1/10)]
    exact max_eq_left (by norm_num)
  have hconfB : max (9/10 : ℚ) (max (1/10) 0) = 9/10 := by
    rw [max_eq_left (by norm_num : (0:ℚ) ≤ 1/10)]
    exact max_eq_left (by norm_num)
  have hdA : calculate_weighted_scores (sentimentOnly (9/10) 0 (1/10)) .depression = 72 := by
    rw [sentimentOnly_fused (9/10) 0 (1/10) hconfA (by norm_num) .depression]
    simp only [process_sentiment_results, ComponentScore.get]
    norm_num [round2, pyRound]
  have haA : calculate_weighted_scores (sentimentOnly (9/10) 0 (1/10)) .anxiety = 81 := by
    rw [sentimentOnly_fused (9/10) 0 (1/10) hconfA (by norm_num) .anxiety]
    simp only [process_sentiment_results, ComponentScore.get]
    norm_num [round2, pyRound]
  have hsA : calculate_weighted_scores (sentimentOnly (9/10) 0 (1/10)) .stress = 84 := by
    rw [sentimentOnly_fused (9/10) 0 (1/10) hconfA (by norm_num) .stress]
    simp only [process_sentiment_results, ComponentScore.get]
    norm_num [round2, pyRound]
  have haB : calculate_weighted_scores (sentimentOnly (9/10) (1/10) 0) .anxiety = 83 := by
    rw [sentimentOnly_fused (9/10) (1/10) 0 hconfB (by norm_num) .anxiety]
    simp only [process_sentiment_results, ComponentScore.get]
    norm_num [round2, pyRound]
  have hsB : calculate_weighted_scores (sentimentOnly (9/10) (1/10) 0) .stress = 81 := by
    rw [sentimentOnly_fused (9/10) (1/10) 0 hconfB (by norm_num) .stress]
    simp only [process_sentiment_results, ComponentScore.get]
    norm_num [round2, pyRound]
  refine ⟨hdA, haA, hsA, ?_, ?_, haB, hsB, ?_⟩
  · rw [hdA, haA]; norm_num
  · rw [haA, hsA]; norm_num
  · rw [haB, hsB]; norm_num

/-- C1 (amended): for valid component scores, each domain's fused score is
the sum over modalities of (domain score × component weight × confidence)
divided by the sum of (component weight × confidence), rounded to two
decimal places; when the denominator is 0 the fused score is 0. -/
theorem claim_C1_fused_score_formula (cs : ComponentScores)
    (h : ValidComponents cs) (d : Domain) :
    calculate_weighted_scores cs d =
      if 40/100 * cs.voice_analysis.confidence +
          25/100 * cs.sentiment_analysis.confidence +
          20/100 * cs.keyword_matching.confidence +
          15/100 * cs.facial_analysis.confidence = 0
      then 0
      else round2
        ((cs.voice_analysis.get d * (40/100) * cs.voice_analysis.confidence +
          cs.sentiment_analysis.get d * (25/100) * cs.sentiment_analysis.confidence +
          cs.keyword_matching.get d * (20/100) * cs.keyword_matching.confidence +
          cs.facial_analysis.get d * (15/100) * cs.facial_analysis.confidence) /
         (40/100 * cs.voice_analysis.confidence +
          25/100 * cs.sentiment_analysis.confidence +
          20/100 * cs.keyword_matching.confidence +
          15/100 * cs.facial_analysis.confidence)) := by
  have hws2 : weighted_sum cs d =
      cs.voice_analysis.get d * (40/100) * cs.voice_analysis.confidence +
      cs.sentiment_analysis.get d * (25/100) * cs.sentiment_analysis.confidence +
      cs.keyword_matching.get d * (20/100) * cs.keyword_matching.confidence +
      cs.facial_analysis.get d * (15/100) * cs.facial_analysis.confidence := by
    rw [weighted_sum_eq]
    ring
  rw [← total_weight_eq, ← hws2]
  unfold calculate_weighted_scores
  by_cases h0 : total_weight cs = 0
  · rw [if_pos h0, if_neg (by rw [h0]; exact lt_irrefl 0)]
    exact weighted_sum_eq_zero_of_total_weight_eq_zero cs h h0 d
  · rw [if_neg h0,
      if_pos (lt_of_le_of_ne (total_weight_nonneg cs h) (Ne.symm h0))]

/-- C1 witness: the formula instantiated at the all-absent component
scores, where the denominator is 0 and the fused score is 0. -/
theorem claim_C1_fused_score_formula_witness :
    calculate_weighted_scores zeroComponents .depression = 0 := by
  rw [claim_C1_fused_score_formula zeroComponents (by decide) .depression]
  norm_num [zeroComponents, zeroComponent]

/-- C3: for valid inputs every fused domain score lies in [0, 100] and
every DASS-21 subscale score lies in [0, 42]; no returned score is
negative. -/
theorem claim_C3_score_bounds :
    (∀ cs : ComponentScores, ValidComponents cs → ∀ d : Domain,
      0 ≤ calculate_weighted_scores cs d ∧ calculate_weighted_scores cs d ≤ 100)
    ∧ (∀ rs : List ℤ, rs.length = 20 → (∀ r ∈ rs, 0 ≤ r ∧ r ≤ 3) → ∀ d : Domain,
      0 ≤ calculate_subscale_score rs d ∧ calculate_subscale_score rs d ≤ 42) := by
  refine ⟨fun cs h d => fused_score_bounds cs h d, ?_⟩
  intro rs h20 hr d
  obtain ⟨⟨hd0, hd1⟩, ⟨ha0, ha1⟩, ⟨hs0, hs1⟩⟩ := subscale_score_bounds rs h20 hr
  cases d
  · exact ⟨hd0, hd1⟩
  · exact ⟨ha0, ha1⟩
  · exact ⟨hs0, by omega⟩

/-- C3 witness: the bounds instantiated at the all-absent component scores
and the all-threes response list. -/
theorem claim_C3_score_bounds_witness :
    (0 ≤ calculate_weighted_scores zeroComponents .depression ∧
      calculate_weighted_scores zeroComponents .depression ≤ 100)
    ∧ (0 ≤ calculate_subscale_score (List.replicate 20 3) .depression ∧
      calculate_subscale_score (List.replicate 20 3) .depression ≤ 42) :=
  ⟨claim_C3_score_bounds.1 zeroComponents (by decide) .depression,
   claim_C3_score_bounds.2 (List.replicate 20 3) (by decide) (by decide) .depression⟩

/-- C4: the DASS-21 scorer succeeds exactly on response lists of length 20
whose entries all lie in 0–3, and every rejected input yields a reported
error value. -/
theorem claim_C4_validation (rs : List ℤ) :
    ((score_assessment rs).toOption.isSome = true ↔
      (rs.length = 20 ∧ ∀ r ∈ rs, 0 ≤ r ∧ r ≤ 3))
    ∧ ((score_assessment rs).toOption.isSome = false →
        ∃ msg, score_assessment rs = Except.error msg) := by
  unfold score_assessment
  by_cases h20 : rs.length = 20
  · rw [if_neg (by omega)]
    cases hfind : rs.find? (fun r => decide (r < 0) || decide (3 < r)) with
    | none =>
      have hall : ∀ r ∈ rs, 0 ≤ r ∧ r ≤ 3 := by
        intro r hr
        have hb := List.find?_eq_none.mp hfind r hr
        simp at hb
        omega
      constructor
      · simpa [Except.toOption] using ⟨h20, hall⟩
      · intro hfalse
        simp [Except.toOption] at hfalse
    | some r =>
      have hmem : r ∈ rs := List.mem_of_find?_eq_some hfind
      have hprop := List.find?_some hfind
      simp at hprop
      constructor
      · simp only [Except.toOption]
        constructor
        · intro habs
          simp at habs
        · intro ⟨_, hall⟩
          have := hall r hmem
          omega
      · intro _
        exact ⟨_, rfl⟩
  · rw [if_pos h20]
    constructor
    · simp only [Except.toOption]
      constructor
      · intro habs
        simp at habs
      · intro ⟨h, _⟩
        exact absurd h h20
    · intro _
      exact ⟨_, rfl⟩

/-- C4 witness: the equivalence instantiated at an accepted all-ones
submission. -/
theorem claim_C4_validation_witness :
    (score_assessment (List.replicate 20 1)).toOption.isSome = true :=
  (claim_C4_validation (List.replicate 20 1)).1.mpr ⟨by decide, by decide⟩

/-- C6: both recommendation generators return a deterministic, duplicate-
free, nonempty list of at most 8 entries, for every input. -/
theorem claim_C6_recommendations :
    (∀ (sl : String) (catScores : List (String × ℚ)) (emotions : List String),
      AssessmentService.generate_recommendations sl catScores emotions ≠ []
      ∧ (AssessmentService.generate_recommendations sl catScores emotions).Nodup
      ∧ (AssessmentService.generate_recommendations sl catScores emotions).length ≤ 8)
    ∧ (∀ dsev asev ssev : Severity,
      generate_recommendations dsev asev ssev ≠ []
      ∧ (generate_recommendations dsev asev ssev).Nodup
      ∧ (generate_recommendations dsev asev ssev).length ≤ 8) := by
  constructor
  · intro sl cats emos
    unfold AssessmentService.generate_recommendations
    have hne : AssessmentService.base_recommendations sl ++
        (cats.flatMap fun p => AssessmentService.category_recommendation p.1 p.2) ++
        AssessmentService.facial_recommendations emos ≠ [] := by
      intro h
      rw [List.append_eq_nil, List.append_eq_nil] at h
      exact base_recommendations_ne_nil sl h.1.1
    have hdne := pyDedup_ne_nil _ hne
    refine ⟨?_, ?_, ?_⟩
    · intro h
      have hcong := congrArg List.length h
      rw [List.length_take] at hcong
      simp only [List.length_nil] at hcong
      have hpos : 0 < (AssessmentService.pyDedup
          (AssessmentService.base_recommendations sl ++
           (cats.flatMap fun p => AssessmentService.category_recommendation p.1 p.2) ++
           AssessmentService.facial_recommendations emos)).length :=
        List.length_pos.mpr hdne
      omega
    · exact (List.take_sublist _ _).nodup (pyDedup_nodup _)
    · rw [List.length_take]
      omega
  · decide

/-- C6 witness: the service generator instantiated at a concrete high-
stress input. -/
theorem claim_C6_recommendations_witness :
    AssessmentService.generate_recommendations "high" [("academic", 80)] ["sad"] ≠ [] :=
  (claim_C6_recommendations.1 "high" [("academic", 80)] ["sad"]).1

/-- C7 (amended): the fusion engine's keyword normalizer scores each
domain as `min(100, 500 × count/total_words)` with confidence
`min(1.0, total matched keywords / 10)`; the sibling
`WeightedAssessmentEngine` keyword converter scores
`min(100, 200 × count/total_words)` and produces no confidence. -/
theorem claim_C7_keyword_normalizer (dep_kw anx_kw str_kw total_words : ℚ) :
    ((process_keyword_results dep_kw anx_kw str_kw total_words).depression =
        min 100 (500 * dep_kw / total_words)
      ∧ (process_keyword_results dep_kw anx_kw str_kw total_words).anxiety =
        min 100 (500 * anx_kw / total_words)
      ∧ (process_keyword_results dep_kw anx_kw str_kw total_words).stress =
        min 100 (500 * str_kw / total_words)
      ∧ (process_keyword_results dep_kw anx_kw str_kw total_words).confidence =
        min 1 ((dep_kw + anx_kw + str_kw) / 10))
    ∧ (WeightedAssessmentEngine.convert_keywords_to_scores dep_kw anx_kw str_kw
          total_words .depression = min 100 (200 * dep_kw / total_words)
      ∧ WeightedAssessmentEngine.convert_keywords_to_scores dep_kw anx_kw str_kw
          total_words .anxiety = min 100 (200 * anx_kw / total_words)
      ∧ WeightedAssessmentEngine.convert_keywords_to_scores dep_kw anx_kw str_kw
          total_words .stress = min 100 (200 * str_kw / total_words)) := by
  refine ⟨⟨?_, ?_, ?_, ?_⟩, ?_, ?_, ?_⟩ <;>
    simp only [process_keyword_results, WeightedAssessmentEngine.convert_keywords_to_scores] <;>
    rw [min_comm] <;> congr 1 <;> ring

/-- C7 witness: the amended score formula at one depression keyword in ten
words. -/
theorem claim_C7_keyword_normalizer_witness :
    (process_keyword_results 1 0 0 10).depression = min 100 (500 * 1 / 10) :=
  (claim_C7_keyword_normalizer 1 0 0 10).1.1

/-- C9 (amended): for a sentiment-only assessment with label `negative` at
probability 0.9, all three fused scores are nonzero for every distribution
of the remaining 0.1 over neutral and positive, and depression (72) is the
smallest: anxiety and stress each exceed it (no fixed order exists between
anxiety and stress). -/
theorem claim_C9_sentiment_only (pos neu : ℚ) (hp : 0 ≤ pos) (hn : 0 ≤ neu)
    (hsum : pos + neu = 1/10) :
    (0 < calculate_weighted_scores (sentimentOnly (9/10) pos neu) .depression
      ∧ 0 < calculate_weighted_scores (sentimentOnly (9/10) pos neu) .anxiety
      ∧ 0 < calculate_weighted_scores (sentimentOnly (9/10) pos neu) .stress)
    ∧ calculate_weighted_scores (sentimentOnly (9/10) pos neu) .depression ≤
        calculate_weighted_scores (sentimentOnly (9/10) pos neu) .anxiety
    ∧ calculate_weighted_scores (sentimentOnly (9/10) pos neu) .depression ≤
        calculate_weighted_scores (sentimentOnly (9/10) pos neu) .stress := by
  have hp1 : pos ≤ 1/10 := by linarith
  have hn1 : neu ≤ 1/10 := by linarith
  have hconf : max (9/10 : ℚ) (max pos neu) = 9/10 :=
    max_eq_left (max_le (by linarith) (by linarith))
  have hd : calculate_weighted_scores (sentimentOnly (9/10) pos neu) .depression = 72 := by
    rw [sentimentOnly_fused _ _ _ hconf (by norm_num) .depression]
    simp only [process_sentiment_results, ComponentScore.get]
    rw [show min ((9/10 : ℚ) * 80) 100 = 72 by norm_num]
    norm_num [round2, pyRound]
  have haEq : calculate_weighted_scores (sentimentOnly (9/10) pos neu) .anxiety =
      round2 (9/10 * 70 + (1 - neu) * 20) := by
    rw [sentimentOnly_fused _ _ _ hconf (by norm_num) .anxiety]
    simp only [process_sentiment_results, ComponentScore.get]
    rw [min_eq_left (by linarith)]
  have hsEq : calculate_weighted_scores (sentimentOnly (9/10) pos neu) .stress =
      round2 (9/10 * 60 + (1 - pos) * 30) := by
    rw [sentimentOnly_fused _ _ _ hconf (by norm_num) .stress]
    simp only [process_sentiment_results, ComponentScore.get]
    rw [min_eq_left (by linarith)]
  have haB : 81 - 1/200 ≤ calculate_weighted_scores (sentimentOnly (9/10) pos neu) .anxiety := by
    rw [haEq]
    have := round2_sub_le (9/10 * 70 + (1 - neu) * 20)
    linarith
  have hsB : 81 - 1/200 ≤ calculate_weighted_scores (sentimentOnly (9/10) pos neu) .stress := by
    rw [hsEq]
    have := round2_sub_le (9/10 * 60 + (1 - pos) * 30)
    linarith
  refine ⟨⟨by rw [hd]; norm_num, by linarith, by linarith⟩, ?_, ?_⟩
  · rw [hd]; linarith
  · rw [hd]; linarith

/-- C9 witness: the amended statement at the even split of the remaining
probability between neutral and positive. -/
theorem claim_C9_sentiment_only_witness :
    (0 < calculate_weighted_scores (sentimentOnly (9/10) (1/20) (1/20)) .depression
      ∧ 0 < calculate_weighted_scores (sentimentOnly (9/10) (1/20) (1/20)) .anxiety
      ∧ 0 < calculate_weighted_scores (sentimentOnly (9/10) (1/20) (1/20)) .stress)
    ∧ calculate_weighted_scores (sentimentOnly (9/10) (1/20) (1/20)) .depression ≤
        calculate_weighted_scores (sentimentOnly (9/10) (1/20) (1/20)) .anxiety
    ∧ calculate_weighted_scores (sentimentOnly (9/10) (1/20) (1/20)) .depression ≤
        calculate_weighted_scores (sentimentOnly (9/10) (1/20) (1/20)) .stress :=
  claim_C9_sentiment_only (1/20) (1/20) (by norm_num) (by norm_num) (by norm_num)

/-- C5 witness: the risk mapping applied at a concrete severe assessment. -/
theorem claim_C5_risk_assessment_witness :
    (assess_risk_level .severe .normal .mild).overall_risk =
      risk_mapping (worstSeverity .severe .normal .mild) :=
  (claim_C5_risk_assessment .severe .normal .mild).1

end Claims

end MStress
